import Mathlib

/-!
Verification of the deephn pipeline (src/main.py): a sequential Hacker
News fetch / assemble / summarize / narrate / persist job.

The embedding is shallow: external effects (HTTP responses, the
completion provider, the speech synthesizer, environment variables) are
passed in as explicit outcome values, and each Python function is
translated into a Lean function over those values.  Python string
slicing, str.join, and truthiness tests are translated directly.
-/

/-- Outcome of one requests.get call: either an HTTP response (its ok
flag and body text) or a network-level exception
(requests.exceptions.RequestException). -/
inductive NetOutcome where
  | response (ok : Bool) (text : String)
  | netError
  deriving DecidableEq, Repr

/-- Outcome of the completion-provider call inside summarize_content:
either a summary text or a provider exception. -/
inductive SummOutcome where
  | ok (text : String)
  | error
  deriving DecidableEq, Repr

/-- Result reason reported by the speech synthesizer:
SynthesizingAudioCompleted, or any other (non-success) completion
reason. -/
inductive SynthOutcome where
  | completed
  | failed
  deriving DecidableEq, Repr

/-- Exceptions that can propagate out of the job, named after the error
taxonomy of the spec: ValueError from check_env_var (ConfigError), an uncaught
requests exception (FetchError at listing scope), and the re-raised
completion-provider exception (SummarizationError). -/
inductive JobError where
  | configError
  | networkError
  | summarizationError
  deriving DecidableEq, Repr

/-- The environment variables the program reads (src/main.py lines 1-6);
a field is none when the variable is unset. -/
structure Env where
  jinaKey : Option String
  openaiBase : Option String
  openaiApiKey : Option String
  openaiModel : Option String
  azureSpeechKey : Option String
  azureSpeechRegion : Option String
  deriving DecidableEq, Repr

/-- check_env_var (src/main.py lines 20-24): os.getenv followed by a
Python truthiness test; an unset or empty variable raises ValueError. -/
def check_env_var (value : Option String) : Except Unit String :=
  match value with
  | none => Except.error ()
  | some v => if v = "" then Except.error () else Except.ok v

/-- Python string slicing s[:n] for a nonnegative bound n: the first n
code points of s. -/
def pyTake (s : String) (n : Nat) : String :=
  (s.toList.take n).asString

/-- Python sep.join(parts). -/
def pyJoin (sep : String) : List String → String
  | [] => ""
  | [p] => p
  | p :: q :: rest => p ++ sep ++ pyJoin sep (q :: rest)

/-- The content_parts list built in get_hacker_news_story (src/main.py
lines 102-108): one tagged section per nonempty ("truthy") input, in
title, article, comments order. -/
def content_parts (title story_content comments_content : String) : List String :=
  (if title = "" then [] else ["<title>\n" ++ title ++ "\n</title>"])
    ++ (if story_content = "" then [] else ["<article>\n" ++ story_content ++ "\n</article>"])
    ++ (if comments_content = "" then [] else ["<comments>\n" ++ comments_content ++ "\n</comments>"])

/-- The Assembler: the return expression of get_hacker_news_story
(src/main.py line 110), joining the content parts with the fixed
separator.  Total by construction, as in the source. -/
def assemble_block (title story_content comments_content : String) : String :=
  pyJoin "\n\n---\n\n" (content_parts title story_content comments_content)

/-- Result of the try-block of get_hacker_news_story (src/main.py lines
75-100): the two fetched texts, plus whether the comments request was
issued at all.  A network exception on the article fetch skips the
comments fetch (both requests share the one try-block) and is caught,
leaving both texts at their initial empty value; a non-ok HTTP status
leaves the corresponding text empty. -/
structure StoryFetchTrace where
  story_content : String
  comments_content : String
  commentsAttempted : Bool
  deriving DecidableEq, Repr

/-- The try-block of get_hacker_news_story (src/main.py lines 75-100),
with the two requests.get outcomes passed in. -/
def fetchStoryParts (articleFetch commentsFetch : NetOutcome) (max_tokens : Nat) : StoryFetchTrace :=
  match articleFetch with
  | NetOutcome.netError =>
      { story_content := "", comments_content := "", commentsAttempted := false }
  | NetOutcome.response aok atext =>
      let story_content := if aok then pyTake atext (max_tokens * 4) else ""
      match commentsFetch with
      | NetOutcome.netError =>
          { story_content := story_content, comments_content := "", commentsAttempted := true }
      | NetOutcome.response cok ctext =>
          { story_content := story_content,
            comments_content := if cok then pyTake ctext (max_tokens * 4) else "",
            commentsAttempted := true }

/-- get_hacker_news_story (src/main.py lines 66-110): checks JINA_KEY
(raising ValueError when unset), runs the fetch try-block, and returns
the assembled block.  The only exception it can propagate is the
ValueError from check_env_var. -/
def get_hacker_news_story (jinaKey : Option String) (title : String)
    (articleFetch commentsFetch : NetOutcome) (max_tokens : Nat) : Except JobError String :=
  match check_env_var jinaKey with
  | Except.error _ => Except.error JobError.configError
  | Except.ok _ =>
      let tr := fetchStoryParts articleFetch commentsFetch max_tokens
      Except.ok (assemble_block title tr.story_content tr.comments_content)

/-- Python str.strip(): drop leading and trailing whitespace. -/
def pyStrip (s : String) : String :=
  ((s.toList.dropWhile Char.isWhitespace).reverse.dropWhile Char.isWhitespace).reverse.asString

/-- summarize_content (src/main.py lines 26-64): the client construction
checks OPENAI_BASE and OPENAI_API_KEY, the create call checks
OPENAI_MODEL; any exception (including those ValueErrors and any
provider error) is printed and re-raised.  On success the completion
text is stripped. -/
def summarize_content (env : Env) (outcome : SummOutcome) : Except JobError String :=
  match check_env_var env.openaiBase with
  | Except.error _ => Except.error JobError.configError
  | Except.ok _ =>
  match check_env_var env.openaiApiKey with
  | Except.error _ => Except.error JobError.configError
  | Except.ok _ =>
  match check_env_var env.openaiModel with
  | Except.error _ => Except.error JobError.configError
  | Except.ok _ =>
  match outcome with
  | SummOutcome.error => Except.error JobError.summarizationError
  | SummOutcome.ok s => Except.ok (pyStrip s)

/-- One story as the orchestrator sees it: its title together with the
outcomes of its two content fetches and of its completion call. -/
structure ItemInput where
  title : String
  articleFetch : NetOutcome
  commentsFetch : NetOutcome
  summOutcome : SummOutcome
  deriving DecidableEq, Repr

/-- The fields of one persisted story dict that the loop body touches:
content is the key set by story[content] = story_content, summary the
key set by story[summary] = summary; none means the key is absent. -/
structure ItemRecord where
  title : String
  content : Option String
  summary : Option String
  deriving DecidableEq, Repr

/-- The body of the per-story loop in job (src/main.py lines 185-197):
fetch and assemble, set the content key unconditionally, and when the
content block is nonempty invoke the Summarizer, whose exception
propagates (there is no try-except here).  Returns the story dict and
the summary appended to all_summaries, if any. -/
def processStory (env : Env) (max_tokens : Nat) (it : ItemInput) :
    Except JobError (ItemRecord × Option String) :=
  match get_hacker_news_story env.jinaKey it.title it.articleFetch it.commentsFetch max_tokens with
  | Except.error e => Except.error e
  | Except.ok story_content =>
      if story_content = "" then
        Except.ok ({ title := it.title, content := some story_content, summary := none }, none)
      else
        match summarize_content env it.summOutcome with
        | Except.error e => Except.error e
        | Except.ok summary =>
            Except.ok ({ title := it.title, content := some story_content, summary := some summary },
              some summary)

/-- The per-story loop of job (src/main.py lines 184-197): stories are
processed in order; the first uncaught exception aborts the whole loop
(and with it the run).  On success, returns the story dicts and the
collected all_summaries list in order. -/
def processItems (env : Env) (max_tokens : Nat) :
    List ItemInput → Except JobError (List ItemRecord × List String)
  | [] => Except.ok ([], [])
  | it :: rest =>
      match processStory env max_tokens it with
      | Except.error e => Except.error e
      | Except.ok (r, sOpt) =>
          match processItems env max_tokens rest with
          | Except.error e => Except.error e
          | Except.ok (recs, sums) =>
              Except.ok (r :: recs,
                match sOpt with
                | some s => s :: sums
                | none => sums)

/-- The stories[:top_n] slice guarded by Python truthiness
(src/main.py lines 179-181): a top_n of None or 0 leaves the list
unchanged. -/
def applyTopN (top_n : Option Nat) (stories : List ItemInput) : List ItemInput :=
  match top_n with
  | none => stories
  | some n => if n = 0 then stories else stories.take n

/-- text_to_speech (src/main.py lines 153-171): checks AZURE_SPEECH_KEY
then AZURE_SPEECH_REGION (ValueError when unset), then synthesizes; a
non-success result reason is only printed, never raised, so the
function returns normally either way. -/
def text_to_speech (env : Env) (_summary : String) (synth : SynthOutcome) :
    Except JobError SynthOutcome :=
  match check_env_var env.azureSpeechKey with
  | Except.error _ => Except.error JobError.configError
  | Except.ok _ =>
  match check_env_var env.azureSpeechRegion with
  | Except.error _ => Except.error JobError.configError
  | Except.ok _ => Except.ok synth

/-- Observable outcome of one invocation of job: whether the aggregator
front-page HTTP request was issued, the story list written by
save_to_json (none when the run died before reaching it), whether the
audio synthesis completed, and the exception that escaped job, if
any. -/
structure JobTrace where
  aggregatorCalled : Bool
  records : Option (List ItemRecord)
  audioOk : Bool
  error : Option JobError
  deriving DecidableEq, Repr

/-- The single requests.get of fetch_hacker_news (src/main.py line 118),
instrumented with the number of attempts made against an oracle of
per-attempt outcomes: the code issues exactly one request, with no
try-except, so a network exception propagates after one attempt. -/
def fetch_hacker_news_request (oracle : Nat → NetOutcome) : Except Unit String × Nat :=
  match oracle 0 with
  | NetOutcome.netError => (Except.error (), 1)
  | NetOutcome.response _ text => (Except.ok text, 1)

/-- job (src/main.py lines 174-215).  The aggregator HTTP request is the
very first action, before any environment check, so aggregatorCalled is
true on every path.  Then: slice to top_n, run the per-story loop
(whose first uncaught exception aborts the run), concatenate the
summaries, call text_to_speech, and only after it returns call
save_to_json.  An exception from the loop or from text_to_speech
therefore leaves records at none. -/
def job (env : Env) (max_tokens : Nat) (top_n : Option Nat)
    (listing : Except Unit (List ItemInput)) (synth : SynthOutcome) : JobTrace :=
  match listing with
  | Except.error _ =>
      { aggregatorCalled := true, records := none, audioOk := false,
        error := some JobError.networkError }
  | Except.ok stories0 =>
      let stories := applyTopN top_n stories0
      match processItems env max_tokens stories with
      | Except.error e =>
          { aggregatorCalled := true, records := none, audioOk := false, error := some e }
      | Except.ok (records, summaries) =>
          match text_to_speech env (pyJoin "\n\n" summaries) synth with
          | Except.error e =>
              { aggregatorCalled := true, records := none, audioOk := false, error := some e }
          | Except.ok s =>
              { aggregatorCalled := true, records := some records,
                audioOk := decide (s = SynthOutcome.completed), error := none }

/-- Python str(x) for an optional id, as interpolated into
hacker_news_url: str(None) is the four-letter string None. -/
def pyStrOpt : Option String → String
  | none => "None"
  | some s => s

/-- One anchor element as select_one returns it: its text and its
optional href attribute (bracket access on a missing attribute raises
KeyError). -/
structure RawAnchor where
  text : String
  href : Option String
  deriving DecidableEq, Repr

/-- The sibling tr row of a listing entry: the optional score element
text and the optional comments-link text. -/
structure RawNextRow where
  score : Option String
  commentsLink : Option String
  deriving DecidableEq, Repr

/-- One .athing row of the front page as the selectors see it: the
optional title anchor, the optional id attribute, and the optional
sibling row. -/
structure RawEntry where
  titleAnchor : Option RawAnchor
  id : Option String
  nextRow : Option RawNextRow
  deriving DecidableEq, Repr

/-- One parsed story dict as fetch_hacker_news builds it (src/main.py
lines 134-141). -/
structure Story where
  id : Option String
  title : String
  url : String
  hacker_news_url : String
  points : String
  comments : String
  deriving DecidableEq, Repr

/-- The body of the parsing loop of fetch_hacker_news (src/main.py lines
122-142) for one entry.  A missing title anchor (AttributeError on
.text), a missing href (KeyError), or a missing sibling row
(AttributeError on select_one) raises, modelled as none; a missing
score or comments element is tolerated via the literal defaults. -/
def parseEntry (item : RawEntry) : Option Story :=
  match item.titleAnchor with
  | none => none
  | some anchor =>
      match anchor.href with
      | none => none
      | some story_url =>
          match item.nextRow with
          | none => none
          | some next_row =>
              some { id := item.id,
                     title := anchor.text,
                     url := story_url,
                     hacker_news_url := "https://news.ycombinator.com/item?id=" ++ pyStrOpt item.id,
                     points := next_row.score.getD "0 points",
                     comments := next_row.commentsLink.getD "0 comments" }

/-- The parsing loop of fetch_hacker_news (src/main.py lines 121-145):
entries are parsed in display order and appended; an exception on any
entry propagates out of fetch_hacker_news, so no list at all is
returned (none). -/
def fetch_hacker_news_stories : List RawEntry → Option (List Story)
  | [] => some []
  | e :: rest =>
      match parseEntry e with
      | none => none
      | some s => (fetch_hacker_news_stories rest).map (fun l => s :: l)

/-- An environment with every variable set, for concrete runs. -/
def envFull : Env :=
  { jinaKey := some "jina-key", openaiBase := some "https://base", openaiApiKey := some "api-key",
    openaiModel := some "model", azureSpeechKey := some "speech-key",
    azureSpeechRegion := some "westus" }

/-- envFull with AZURE_SPEECH_KEY unset. -/
def envNoAzureKey : Env :=
  { envFull with azureSpeechKey := none }

/-- A story whose fetches and completion call all succeed. -/
def itemPlain : ItemInput :=
  { title := "A", articleFetch := NetOutcome.response true "article text a",
    commentsFetch := NetOutcome.response true "comments text a",
    summOutcome := SummOutcome.ok "summary a" }

/-- A story whose fetches succeed but whose completion call raises. -/
def itemSummFail : ItemInput :=
  { title := "B", articleFetch := NetOutcome.response true "article text b",
    commentsFetch := NetOutcome.response true "comments text b",
    summOutcome := SummOutcome.error }

/-- A story whose article fetch raises a network exception (so the
comments fetch is never attempted) and whose completion call would
succeed. -/
def itemNetFail : ItemInput :=
  { title := "C", articleFetch := NetOutcome.netError,
    commentsFetch := NetOutcome.response true "comments text c",
    summOutcome := SummOutcome.ok "summary c" }

/-- A well-formed listing entry with full markup. -/
def goodEntry1 : RawEntry :=
  { titleAnchor := some { text := "Story One", href := some "https://one.example" },
    id := some "1001",
    nextRow := some { score := some "10 points", commentsLink := some "5 comments" } }

/-- A malformed listing entry: its title anchor is missing, so .text
raises AttributeError in the source. -/
def badEntry : RawEntry :=
  { titleAnchor := none, id := some "1002",
    nextRow := some { score := some "3 points", commentsLink := some "1 comment" } }

/-- A second well-formed listing entry, with score and comments markup
missing (tolerated via defaults). -/
def goodEntry2 : RawEntry :=
  { titleAnchor := some { text := "Story Two", href := some "https://two.example" },
    id := some "1003",
    nextRow := some { score := none, commentsLink := none } }

/-- An attempt oracle whose first attempt fails at network level and
whose later attempts would succeed. -/
def transientOracle : Nat → NetOutcome :=
  fun n => if n = 0 then NetOutcome.netError else NetOutcome.response true "front page"

/-- A string of length zero is the empty string. -/
theorem string_eq_empty_of_length_zero (s : String) (h : s.length = 0) : s = "" := by
  cases s with
  | mk d =>
    cases d with
    | nil => rfl
    | cons a t => simp [String.length] at h

/-- Appending on the right never erases a nonempty string. -/
theorem string_append_ne_empty_left (x y : String) (hx : x ≠ "") : x ++ y ≠ "" := by
  intro h
  apply hx
  have hlen := congrArg String.length h
  rw [String.length_append] at hlen
  have h0 : ("" : String).length = 0 := rfl
  rw [h0] at hlen
  exact string_eq_empty_of_length_zero x (by omega)

/-- A tagged section, which begins with its nonempty opening tag, is
never the empty string. -/
theorem tagged_ne_empty (pre mid post : String) (hpre : pre ≠ "") : pre ++ mid ++ post ≠ "" :=
  string_append_ne_empty_left _ _ (string_append_ne_empty_left _ _ hpre)

/-- Every element of a content_parts list is a nonempty string. -/
theorem content_parts_mem_ne_empty (t a c : String) :
    ∀ p ∈ content_parts t a c, p ≠ "" := by
  intro p hp
  simp only [content_parts, List.mem_append] at hp
  rcases hp with (hp | hp) | hp <;>
  · split at hp
    · exact absurd hp (List.not_mem_nil p)
    · rw [List.mem_singleton] at hp
      subst hp
      exact tagged_ne_empty _ _ _ (by decide)

/-- The content_parts list is empty exactly when all three inputs are
empty (Python truthiness). -/
theorem content_parts_eq_nil_iff (t a c : String) :
    content_parts t a c = [] ↔ (t = "" ∧ a = "" ∧ c = "") := by
  unfold content_parts
  by_cases ht : t = "" <;> by_cases ha : a = "" <;> by_cases hc : c = "" <;> simp [ht, ha, hc]

/-- Joining a list of nonempty parts yields the empty string exactly
when the list is empty. -/
theorem pyJoin_eq_empty_iff (sep : String) (parts : List String)
    (h : ∀ p ∈ parts, p ≠ "") : (pyJoin sep parts = "" ↔ parts = []) := by
  cases parts with
  | nil => simp [pyJoin]
  | cons p rest =>
    cases rest with
    | nil =>
      simp only [pyJoin]
      constructor
      · intro he; exact absurd he (h p (by simp))
      · intro he; cases he
    | cons q r =>
      simp only [pyJoin]
      constructor
      · intro he
        exact absurd he (string_append_ne_empty_left _ _
          (string_append_ne_empty_left _ _ (h p (by simp))))
      · intro he; cases he

/-- The assembled block is empty exactly when all three inputs are
empty. -/
theorem assemble_block_eq_empty_iff (t a c : String) :
    assemble_block t a c = "" ↔ (t = "" ∧ a = "" ∧ c = "") := by
  rw [assemble_block, pyJoin_eq_empty_iff _ _ (content_parts_mem_ne_empty t a c),
    content_parts_eq_nil_iff]

/-- With empty article and comments text, the assembled block is just
the tagged title section. -/
theorem assemble_block_title_only (t : String) (ht : t ≠ "") :
    assemble_block t "" "" = "<title>\n" ++ t ++ "\n</title>" := by
  simp [assemble_block, content_parts, ht, pyJoin]

/-- An uncaught exception in the loop body aborts the whole per-story
loop at the first failing story. -/
theorem processItems_cons_error (env : Env) (max_tokens : Nat) (it : ItemInput)
    (rest : List ItemInput) (e : JobError)
    (h : processStory env max_tokens it = Except.error e) :
    processItems env max_tokens (it :: rest) = Except.error e := by
  simp [processItems, h]

/-- The top_n slice never drops the head of a nonempty story list. -/
theorem applyTopN_cons (top_n : Option Nat) (it : ItemInput) (rest : List ItemInput) :
    ∃ rest2, applyTopN top_n (it :: rest) = it :: rest2 := by
  cases top_n with
  | none => exact ⟨rest, rfl⟩
  | some n =>
    cases n with
    | zero => exact ⟨rest, rfl⟩
    | succ m => exact ⟨rest.take m, by simp [applyTopN]⟩

/-- Whenever the loop body returns normally, the story dict it returns
has its content key set to the assembled block of the fetched texts. -/
theorem processStory_content_eq (env : Env) (max_tokens : Nat) (it : ItemInput)
    (r : ItemRecord) (sOpt : Option String)
    (hp : processStory env max_tokens it = Except.ok (r, sOpt)) :
    r.content = some (assemble_block it.title
      (fetchStoryParts it.articleFetch it.commentsFetch max_tokens).story_content
      (fetchStoryParts it.articleFetch it.commentsFetch max_tokens).comments_content) := by
  unfold processStory get_hacker_news_story at hp
  cases hj : check_env_var env.jinaKey with
  | error u => rw [hj] at hp; cases hp
  | ok jk =>
    rw [hj] at hp
    dsimp only at hp
    split at hp
    · injection hp with h
      injection h with h1 h2
      subst h1
      rfl
    · split at hp
      · cases hp
      · injection hp with h
        injection h with h1 h2
        subst h1
        rfl

/-- When the title is nonempty and the OPENAI variables are set but the
completion call raises, the loop body re-raises SummarizationError. -/
theorem processStory_summ_error (env : Env) (max_tokens : Nat) (it : ItemInput)
    (jk b k m : String)
    (hj : check_env_var env.jinaKey = Except.ok jk)
    (hb : check_env_var env.openaiBase = Except.ok b)
    (hk : check_env_var env.openaiApiKey = Except.ok k)
    (hm : check_env_var env.openaiModel = Except.ok m)
    (hs : it.summOutcome = SummOutcome.error)
    (ht : it.title ≠ "") :
    processStory env max_tokens it = Except.error JobError.summarizationError := by
  have hcontent : assemble_block it.title
      (fetchStoryParts it.articleFetch it.commentsFetch max_tokens).story_content
      (fetchStoryParts it.articleFetch it.commentsFetch max_tokens).comments_content ≠ "" := by
    intro h0
    exact ht ((assemble_block_eq_empty_iff _ _ _).mp h0).1
  simp [processStory, get_hacker_news_story, hj, summarize_content, hb, hk, hm, hs, hcontent]

/-- Python slicing never returns more than the requested number of
characters. -/
theorem pyTake_length_le (s : String) (n : Nat) : (pyTake s n).length ≤ n := by
  have h : (pyTake s n).length = (s.toList.take n).length := rfl
  rw [h, List.length_take]
  exact Nat.min_le_left _ _

/-- C6: for every URL (response) and every max_tokens greater than zero,
the text kept from each Content Fetcher call — the article fetch and
the comments fetch separately — has length at most max_tokens * 4
characters. -/
theorem C6_content_fetch_truncation (articleFetch commentsFetch : NetOutcome)
    (max_tokens : Nat) (_h : 0 < max_tokens) :
    (fetchStoryParts articleFetch commentsFetch max_tokens).story_content.length ≤ max_tokens * 4 ∧
    (fetchStoryParts articleFetch commentsFetch max_tokens).comments_content.length ≤ max_tokens * 4 := by
  cases articleFetch with
  | netError => refine ⟨?_, ?_⟩ <;> simp [fetchStoryParts]
  | response aok atext =>
    cases commentsFetch with
    | netError =>
      refine ⟨?_, ?_⟩
      · cases aok <;> simp [fetchStoryParts, pyTake_length_le]
      · simp [fetchStoryParts]
    | response cok ctext =>
      refine ⟨?_, ?_⟩
      · cases aok <;> simp [fetchStoryParts, pyTake_length_le]
      · cases cok <;> simp [fetchStoryParts, pyTake_length_le]

/-- Witness for C6 at a concrete response pair and budget. -/
theorem C6_witness :
    0 < 2 ∧
    ((fetchStoryParts (NetOutcome.response true "abcdefghijklmnop")
        (NetOutcome.response true "xyz") 2).story_content.length ≤ 2 * 4 ∧
      (fetchStoryParts (NetOutcome.response true "abcdefghijklmnop")
        (NetOutcome.response true "xyz") 2).comments_content.length ≤ 2 * 4) :=
  ⟨by decide, C6_content_fetch_truncation (NetOutcome.response true "abcdefghijklmnop")
    (NetOutcome.response true "xyz") 2 (by decide)⟩

/-- C7: the Assembler is a total pure function of title, article text
and comments text; it returns the empty string exactly when all three
inputs are empty, and in every one of the remaining emptiness
combinations it is the ordered concatenation of exactly the tagged
sections of the nonempty inputs, joined by the fixed separator — every
section whose source text is empty is omitted. -/
theorem C7_assembler_shape :
    (∀ t a c : String, (assemble_block t a c = "" ↔ (t = "" ∧ a = "" ∧ c = ""))) ∧
    (∀ t a c : String, t ≠ "" → a ≠ "" → c ≠ "" →
      assemble_block t a c =
        "<title>\n" ++ t ++ "\n</title>" ++ "\n\n---\n\n" ++
          ("<article>\n" ++ a ++ "\n</article>" ++ "\n\n---\n\n" ++
            ("<comments>\n" ++ c ++ "\n</comments>"))) ∧
    (∀ t a : String, t ≠ "" → a ≠ "" →
      assemble_block t a "" =
        "<title>\n" ++ t ++ "\n</title>" ++ "\n\n---\n\n" ++
          ("<article>\n" ++ a ++ "\n</article>")) ∧
    (∀ t c : String, t ≠ "" → c ≠ "" →
      assemble_block t "" c =
        "<title>\n" ++ t ++ "\n</title>" ++ "\n\n---\n\n" ++
          ("<comments>\n" ++ c ++ "\n</comments>")) ∧
    (∀ a c : String, a ≠ "" → c ≠ "" →
      assemble_block "" a c =
        "<article>\n" ++ a ++ "\n</article>" ++ "\n\n---\n\n" ++
          ("<comments>\n" ++ c ++ "\n</comments>")) ∧
    (∀ t : String, t ≠ "" → assemble_block t "" "" = "<title>\n" ++ t ++ "\n</title>") ∧
    (∀ a : String, a ≠ "" → assemble_block "" a "" = "<article>\n" ++ a ++ "\n</article>") ∧
    (∀ c : String, c ≠ "" → assemble_block "" "" c = "<comments>\n" ++ c ++ "\n</comments>") := by
  refine ⟨?_, ?_, ?_, ?_, ?_, ?_, ?_, ?_⟩
  · intro t a c
    exact assemble_block_eq_empty_iff t a c
  · intro t a c ht ha hc
    simp [assemble_block, content_parts, ht, ha, hc, pyJoin]
  · intro t a ht ha
    simp [assemble_block, content_parts, ht, ha, pyJoin]
  · intro t c ht hc
    simp [assemble_block, content_parts, ht, hc, pyJoin]
  · intro a c ha hc
    simp [assemble_block, content_parts, ha, hc, pyJoin]
  · intro t ht
    simp [assemble_block, content_parts, ht, pyJoin]
  · intro a ha
    simp [assemble_block, content_parts, ha, pyJoin]
  · intro c hc
    simp [assemble_block, content_parts, hc, pyJoin]

/-- Witness for C7 at concrete inputs, exercising the all-empty case,
the all-nonempty case, and the mixed cases that omit a section. -/
theorem C7_witness :
    (assemble_block "" "" "" = "" ↔ (("" : String) = "" ∧ ("" : String) = "" ∧ ("" : String) = "")) ∧
    assemble_block "t" "a" "c" =
      "<title>\nt\n</title>\n\n---\n\n<article>\na\n</article>\n\n---\n\n<comments>\nc\n</comments>" ∧
    assemble_block "t" "a" "" = "<title>\nt\n</title>\n\n---\n\n<article>\na\n</article>" ∧
    assemble_block "t" "" "c" = "<title>\nt\n</title>\n\n---\n\n<comments>\nc\n</comments>" ∧
    assemble_block "" "a" "c" = "<article>\na\n</article>\n\n---\n\n<comments>\nc\n</comments>" ∧
    assemble_block "t" "" "" = "<title>\nt\n</title>" ∧
    assemble_block "" "a" "" = "<article>\na\n</article>" ∧
    assemble_block "" "" "c" = "<comments>\nc\n</comments>" := by
  obtain ⟨h1, h2, h3, h4, h5, h6, h7, h8⟩ := C7_assembler_shape
  refine ⟨h1 "" "" "", ?_, ?_, ?_, ?_, ?_, ?_, ?_⟩
  · rw [h2 "t" "a" "c" (by decide) (by decide) (by decide)]
    rfl
  · rw [h3 "t" "a" (by decide) (by decide)]
    rfl
  · rw [h4 "t" "c" (by decide) (by decide)]
    rfl
  · rw [h5 "a" "c" (by decide) (by decide)]
    rfl
  · rw [h6 "t" (by decide)]
    rfl
  · rw [h7 "a" (by decide)]
    rfl
  · rw [h8 "c" (by decide)]
    rfl

/-- C8: the Assembler is deterministic — identical inputs yield
identical output. -/
theorem C8_assembler_deterministic (t a c t2 a2 c2 : String)
    (h1 : t = t2) (h2 : a = a2) (h3 : c = c2) :
    assemble_block t a c = assemble_block t2 a2 c2 := by
  rw [h1, h2, h3]

/-- Witness for C8 at concrete identical inputs. -/
theorem C8_witness : assemble_block "x" "y" "z" = assemble_block "x" "y" "z" :=
  C8_assembler_deterministic "x" "y" "z" "x" "y" "z" rfl rfl rfl

/-- C10: the article and comments fetches share one try-block.  When the
article fetch raises a network exception, the comments fetch is never
attempted, both fetched texts stay empty, the exception is not
propagated, and the function returns the assembled title-only block. -/
theorem C10_shared_exception_scope (jinaKey : Option String) (jk : String)
    (hj : check_env_var jinaKey = Except.ok jk)
    (title : String) (commentsFetch : NetOutcome) (max_tokens : Nat) :
    fetchStoryParts NetOutcome.netError commentsFetch max_tokens =
      { story_content := "", comments_content := "", commentsAttempted := false } ∧
    get_hacker_news_story jinaKey title NetOutcome.netError commentsFetch max_tokens =
      Except.ok (assemble_block title "" "") ∧
    (title ≠ "" →
      get_hacker_news_story jinaKey title NetOutcome.netError commentsFetch max_tokens =
        Except.ok ("<title>\n" ++ title ++ "\n</title>")) := by
  refine ⟨rfl, ?_, ?_⟩
  · simp [get_hacker_news_story, hj, fetchStoryParts]
  · intro ht
    simp [get_hacker_news_story, hj, fetchStoryParts, assemble_block_title_only title ht]

/-- Witness for C10 at a concrete key, title and comments outcome. -/
theorem C10_witness :
    fetchStoryParts NetOutcome.netError (NetOutcome.response true "cc") 3 =
      { story_content := "", comments_content := "", commentsAttempted := false } ∧
    get_hacker_news_story (some "jina-key") "T" NetOutcome.netError
        (NetOutcome.response true "cc") 3 = Except.ok (assemble_block "T" "" "") ∧
    (("T" : String) ≠ "" →
      get_hacker_news_story (some "jina-key") "T" NetOutcome.netError
          (NetOutcome.response true "cc") 3 = Except.ok ("<title>\nT\n</title>")) :=
  C10_shared_exception_scope (some "jina-key") "jina-key" rfl "T"
    (NetOutcome.response true "cc") 3

/-- C1 counterexample: a run whose first story has a failing completion
call.  The claim says the failure aborts only that story, the story
still appears in the persisted list, and the orchestrator proceeds to
the next story; the code instead lets the exception escape job, so the
run aborts with SummarizationError and save_to_json is never reached —
no persisted list exists at all, and the second story is never
processed. -/
theorem C1_counterexample :
    job envFull 5 none (Except.ok [itemSummFail, itemPlain]) SynthOutcome.completed =
      { aggregatorCalled := true, records := none, audioOk := false,
        error := some JobError.summarizationError } := by
  rfl

/-- C1 amended: a failure of the Summarizer call for a story whose
assembled content is nonempty aborts the whole run — the exception
propagates out of job, later stories are not processed, and no
structured-data file is written. -/
theorem C1_summarizer_failure_aborts_run (env : Env) (max_tokens : Nat) (it : ItemInput)
    (jk b k m : String)
    (hj : check_env_var env.jinaKey = Except.ok jk)
    (hb : check_env_var env.openaiBase = Except.ok b)
    (hk : check_env_var env.openaiApiKey = Except.ok k)
    (hm : check_env_var env.openaiModel = Except.ok m)
    (hs : it.summOutcome = SummOutcome.error)
    (ht : it.title ≠ "")
    (rest : List ItemInput) (top_n : Option Nat) (synth : SynthOutcome) :
    job env max_tokens top_n (Except.ok (it :: rest)) synth =
      { aggregatorCalled := true, records := none, audioOk := false,
        error := some JobError.summarizationError } := by
  obtain ⟨rest2, hr⟩ := applyTopN_cons top_n it rest
  have hps := processStory_summ_error env max_tokens it jk b k m hj hb hk hm hs ht
  have hpi := processItems_cons_error env max_tokens it rest2 _ hps
  simp [job, hr, hpi]

/-- Witness for C1 amended at a concrete environment and story. -/
theorem C1_witness :
    job envFull 5 none (Except.ok [itemSummFail]) SynthOutcome.completed =
      { aggregatorCalled := true, records := none, audioOk := false,
        error := some JobError.summarizationError } :=
  C1_summarizer_failure_aborts_run envFull 5 itemSummFail
    "jina-key" "https://base" "api-key" "model" rfl rfl rfl rfl rfl (by decide)
    [] none SynthOutcome.completed

/-- C2 counterexample: an attempt oracle whose first attempt fails with
a network exception and whose second attempt would succeed.  The claim
says the listing fetch is retried up to 3 attempts with exponential
backoff before surfacing the failure; the code issues exactly one
requests.get with no retry, so the failure surfaces after one attempt
even though a second attempt would have succeeded. -/
theorem C2_counterexample :
    fetch_hacker_news_request transientOracle = (Except.error (), 1) ∧
    transientOracle 1 = NetOutcome.response true "front page" :=
  ⟨rfl, rfl⟩

/-- C2 amended: there is no retry.  The listing fetch makes exactly one
attempt and a network-level failure propagates immediately; a per-story
content fetch network failure is caught inside the fetch function,
leaving both texts empty, rather than being retried or surfaced. -/
theorem C2_no_retry (oracle : Nat → NetOutcome) :
    (fetch_hacker_news_request oracle).2 = 1 ∧
    (oracle 0 = NetOutcome.netError →
      (fetch_hacker_news_request oracle).1 = Except.error ()) ∧
    (∀ commentsFetch max_tokens,
      fetchStoryParts NetOutcome.netError commentsFetch max_tokens =
        { story_content := "", comments_content := "", commentsAttempted := false }) := by
  refine ⟨?_, ?_, ?_⟩
  · unfold fetch_hacker_news_request
    cases oracle 0 <;> rfl
  · intro h
    simp [fetch_hacker_news_request, h]
  · intro commentsFetch max_tokens
    rfl

/-- Witness for C2 amended at the concrete transient oracle. -/
theorem C2_witness :
    (fetch_hacker_news_request transientOracle).2 = 1 ∧
    (fetch_hacker_news_request transientOracle).1 = Except.error () := by
  obtain ⟨h1, h2, h3⟩ := C2_no_retry transientOracle
  exact ⟨h1, h2 rfl⟩

/-- C3 counterexample: a listing with a malformed entry between two
well-formed ones.  The claim says the Listing Fetcher skips the
malformed entry and returns exactly the two well-formed entries in
order; the code instead raises AttributeError on the malformed entry
(missing title anchor), so the whole listing fetch fails and returns
nothing. -/
theorem C3_counterexample :
    (parseEntry goodEntry1).isSome = true ∧
    (parseEntry goodEntry2).isSome = true ∧
    parseEntry badEntry = none ∧
    fetch_hacker_news_stories [goodEntry1, badEntry, goodEntry2] = none :=
  ⟨rfl, rfl, rfl, rfl⟩

/-- C3 amended: a malformed entry (missing title anchor, missing href,
or missing sibling row) is fatal to the whole listing fetch — no list
is returned at all; only missing score or comment-count markup inside
the sibling row is tolerated, via the defaults 0 points and
0 comments. -/
theorem C3_malformed_entry_fatal (entries : List RawEntry)
    (h : ∃ e ∈ entries, parseEntry e = none) :
    fetch_hacker_news_stories entries = none ∧
    (∀ (txt href : String) (i : Option String),
      parseEntry { titleAnchor := some { text := txt, href := some href }, id := i,
                   nextRow := some { score := none, commentsLink := none } } =
        some { id := i, title := txt, url := href,
               hacker_news_url := "https://news.ycombinator.com/item?id=" ++ pyStrOpt i,
               points := "0 points", comments := "0 comments" }) := by
  constructor
  · induction entries with
    | nil => simp at h
    | cons e rest ih =>
      obtain ⟨x, hx, hpx⟩ := h
      rcases List.mem_cons.mp hx with heq | hx2
      · subst heq
        simp [fetch_hacker_news_stories, hpx]
      · cases hpe : parseEntry e with
        | none => simp [fetch_hacker_news_stories, hpe]
        | some s => simp [fetch_hacker_news_stories, hpe, ih ⟨x, hx2, hpx⟩]
  · intro txt href i
    rfl

/-- Witness for C3 amended at a concrete one-entry malformed listing. -/
theorem C3_witness : fetch_hacker_news_stories [badEntry] = none :=
  (C3_malformed_entry_fatal [badEntry] ⟨badEntry, List.mem_singleton.mpr rfl, rfl⟩).1

/-- C4 counterexample: a run with AZURE_SPEECH_KEY unset.  The claim
says the run aborts with ConfigError before any HTTP call to the
aggregator; in the code the aggregator request is the very first action
of job and the variable is only checked inside text_to_speech, so the
aggregator call has already happened when the ConfigError abort occurs
(the no-partial-file half of the claim does hold: save_to_json is never
reached). -/
theorem C4_counterexample :
    (job envNoAzureKey 5 none (Except.ok [itemPlain]) SynthOutcome.completed).aggregatorCalled
      = true ∧
    (job envNoAzureKey 5 none (Except.ok [itemPlain]) SynthOutcome.completed).error
      = some JobError.configError ∧
    (job envNoAzureKey 5 none (Except.ok [itemPlain]) SynthOutcome.completed).records = none :=
  ⟨rfl, rfl, rfl⟩

/-- C4 amended: with AZURE_SPEECH_KEY unset the run still issues the
aggregator HTTP call and processes the stories, then aborts with
ConfigError at the point of use inside text_to_speech; no
structured-data file is written on any path. -/
theorem C4_config_check_is_lazy (env : Env) (h : env.azureSpeechKey = none)
    (max_tokens : Nat) (top_n : Option Nat) (listing : Except Unit (List ItemInput))
    (synth : SynthOutcome) :
    (job env max_tokens top_n listing synth).aggregatorCalled = true ∧
    (job env max_tokens top_n listing synth).records = none ∧
    (∀ stories records summaries, listing = Except.ok stories →
      processItems env max_tokens (applyTopN top_n stories) = Except.ok (records, summaries) →
      (job env max_tokens top_n listing synth).error = some JobError.configError) := by
  have htts : ∀ s sy, text_to_speech env s sy = Except.error JobError.configError := by
    intro s sy
    simp [text_to_speech, check_env_var, h]
  refine ⟨?_, ?_, ?_⟩
  · cases listing with
    | error u => rfl
    | ok stories =>
      cases hpi : processItems env max_tokens (applyTopN top_n stories) with
      | error e => simp [job, hpi]
      | ok p =>
        obtain ⟨records, summaries⟩ := p
        simp [job, hpi, htts]
  · cases listing with
    | error u => rfl
    | ok stories =>
      cases hpi : processItems env max_tokens (applyTopN top_n stories) with
      | error e => simp [job, hpi]
      | ok p =>
        obtain ⟨records, summaries⟩ := p
        simp [job, hpi, htts]
  · intro stories records summaries hl hpi
    subst hl
    simp [job, hpi, htts]

/-- Witness for C4 amended at a concrete environment and listing. -/
theorem C4_witness :
    (job envNoAzureKey 5 none (Except.ok [itemNetFail]) SynthOutcome.completed).aggregatorCalled
      = true ∧
    (job envNoAzureKey 5 none (Except.ok [itemNetFail]) SynthOutcome.completed).records = none ∧
    (job envNoAzureKey 5 none (Except.ok [itemNetFail]) SynthOutcome.completed).error
      = some JobError.configError := by
  have h := C4_config_check_is_lazy envNoAzureKey rfl 5 none
    (Except.ok [itemNetFail]) SynthOutcome.completed
  exact ⟨h.1, h.2.1, h.2.2 [itemNetFail]
    [{ title := "C", content := some "<title>\nC\n</title>", summary := some "summary c" }]
    ["summary c"] rfl rfl⟩

/-- C5 counterexample: a story whose article fetch raises (so both
fetched texts stay empty) still gets its content key set — to the
title-only block — and, because that block is nonempty, even gets a
summary.  The claim says an item whose fetches all fail has no content
field. -/
theorem C5_counterexample :
    processStory envFull 5 itemNetFail =
      Except.ok ({ title := "C", content := some "<title>\nC\n</title>",
                   summary := some "summary c" }, some "summary c") := by
  rfl

/-- C5 amended: the content key is set unconditionally for every story
the loop body completes, to the assembled block; when every fetch fails
it still holds the title-only block (never absent). -/
theorem C5_content_always_populated (env : Env) (max_tokens : Nat) (it : ItemInput)
    (r : ItemRecord) (sOpt : Option String)
    (hp : processStory env max_tokens it = Except.ok (r, sOpt)) :
    r.content ≠ none ∧
    (it.articleFetch = NetOutcome.netError → it.title ≠ "" →
      r.content = some ("<title>\n" ++ it.title ++ "\n</title>")) := by
  have hc := processStory_content_eq env max_tokens it r sOpt hp
  constructor
  · rw [hc]
    exact Option.some_ne_none _
  · intro ha ht
    rw [hc, ha]
    simp [fetchStoryParts, assemble_block_title_only it.title ht]

/-- Witness for C5 amended at a concrete story whose article fetch
raises. -/
theorem C5_witness :
    ({ title := "C", content := some "<title>\nC\n</title>",
       summary := some "summary c" } : ItemRecord).content ≠ none ∧
    (itemNetFail.articleFetch = NetOutcome.netError → itemNetFail.title ≠ "" →
      ({ title := "C", content := some "<title>\nC\n</title>",
         summary := some "summary c" } : ItemRecord).content =
        some ("<title>\n" ++ itemNetFail.title ++ "\n</title>")) :=
  C5_content_always_populated envFull 5 itemNetFail _ _ rfl

/-- C9: a non-success completion reason from the speech synthesizer is
only logged; text_to_speech returns normally, so save_to_json still
writes the full story list and no exception escapes the run — only the
audio artifact is affected. -/
theorem C9_synthesis_failure_still_persists (env : Env) (ak ar : String)
    (hk : env.azureSpeechKey = some ak) (hk2 : ak ≠ "")
    (hr : env.azureSpeechRegion = some ar) (hr2 : ar ≠ "")
    (max_tokens : Nat) (top_n : Option Nat) (stories : List ItemInput)
    (records : List ItemRecord) (summaries : List String)
    (hpi : processItems env max_tokens (applyTopN top_n stories) = Except.ok (records, summaries)) :
    job env max_tokens top_n (Except.ok stories) SynthOutcome.failed =
      { aggregatorCalled := true, records := some records, audioOk := false, error := none } := by
  have htts : text_to_speech env (pyJoin "\n\n" summaries) SynthOutcome.failed =
      Except.ok SynthOutcome.failed := by
    simp [text_to_speech, check_env_var, hk, hr, hk2, hr2]
  simp [job, hpi, htts]

/-- Witness for C9 at a concrete environment and story list. -/
theorem C9_witness :
    job envFull 5 none (Except.ok [itemNetFail]) SynthOutcome.failed =
      { aggregatorCalled := true,
        records := some [{ title := "C", content := some "<title>\nC\n</title>",
                           summary := some "summary c" }],
        audioOk := false, error := none } :=
  C9_synthesis_failure_still_persists envFull "speech-key" "westus" rfl (by decide) rfl (by decide)
    5 none [itemNetFail]
    [{ title := "C", content := some "<title>\nC\n</title>", summary := some "summary c" }]
    ["summary c"] rfl
